import Mathlib

/-!
Shallow embedding of the `bili-open-live-go` repository: the binary
wire-frame codec (`writeWsProtoMsg` / `parseWsProtoMsg`), the streaming
connection state machine (`liveWebsocketClient`), the request-signing
transport (`GenerateSignature` / `ApiTransport.RoundTrip`) and the client
facade (`LiveClient.Connect`).

Byte sequences are modelled as `List Nat`; each access reduces the stored
value modulo 256, mirroring the Go `byte` type.  Go `int16` / `int32`
values are modelled as `Int` with explicit two-complement reduction.
-/

set_option maxHeartbeats 1000000
set_option linter.unusedVariables false

/-- Interpret a bit pattern below 2^32 as a Go `int32` value. -/
def toInt32 (n : Nat) : Int :=
  if n % 4294967296 < 2147483648 then (n % 4294967296 : Nat)
  else (n % 4294967296 : Int) - 4294967296

/-- Interpret a bit pattern below 2^16 as a Go `int16` value. -/
def toInt16 (n : Nat) : Int :=
  if n % 65536 < 32768 then (n % 65536 : Nat)
  else (n % 65536 : Int) - 65536

/-- Read one byte of a buffer, reducing modulo 256 as the Go `byte` type does. -/
def byteAt (buf : List Nat) (i : Nat) : Nat := buf.getD i 0 % 256

/-- Model of `binary.BigEndian.Uint16` at a fixed offset. -/
def readBE16 (buf : List Nat) (off : Nat) : Nat :=
  byteAt buf off * 256 + byteAt buf (off + 1)

/-- Model of `binary.BigEndian.Uint32` at a fixed offset. -/
def readBE32 (buf : List Nat) (off : Nat) : Nat :=
  byteAt buf off * 16777216 + byteAt buf (off + 1) * 65536 +
    byteAt buf (off + 2) * 256 + byteAt buf (off + 3)

/-- Two-complement bit pattern of a Go `int16` value. -/
def toPat16 (v : Int) : Nat := (v % 65536).toNat

/-- Two-complement bit pattern of a Go `int32` value. -/
def toPat32 (v : Int) : Nat := (v % 4294967296).toNat

/-- Big-endian two-complement encoding of a Go `int16` (what `binary.Write` emits). -/
def be16 (v : Int) : List Nat :=
  [toPat16 v / 256, toPat16 v % 256]

/-- Big-endian two-complement encoding of a Go `int32` (what `binary.Write` emits). -/
def be32 (v : Int) : List Nat :=
  [toPat32 v / 16777216, toPat32 v / 65536 % 256, toPat32 v / 256 % 256, toPat32 v % 256]

/-- Protocol constants from the source: `wsProtoMaxBodySize = 1 <<< 11`. -/
def wsProtoMaxBodySize : Int := 2048

/-- Fixed raw header size: 4 (pack) + 2 (header) + 2 (version) + 4 (op) + 4 (seq). -/
def wsProtoRawHeaderSize : Int := 16

/-- Maximum packet size: max body size + raw header size. -/
def wsProtoMaxPackSize : Int := wsProtoMaxBodySize + wsProtoRawHeaderSize

/-- The wire message structure `wsProtoMsg`: Version `int16`, Operation
`wsProtoOp` (an `int32`), SequenceID `int32`, Body a byte slice. -/
structure wsProtoMsg where
  version : Int
  operation : Int
  sequenceID : Int
  body : List Nat
deriving Repr, DecidableEq, Inhabited

/-- Operation code `wsProtoOpHeartbeat`. -/
def wsProtoOpHeartbeat : Int := 2
/-- Operation code `wsProtoOpHeartbeatReply`. -/
def wsProtoOpHeartbeatReply : Int := 3
/-- Operation code `wsProtoOpSendMsgReply`. -/
def wsProtoOpSendMsgReply : Int := 5
/-- Operation code `wsProtoOpAuth`. -/
def wsProtoOpAuth : Int := 7
/-- Operation code `wsProtoOpAuthReply`. -/
def wsProtoOpAuthReply : Int := 8

/-- Serialization of a frame, mirroring `writeWsProtoMsg`: packSize, a
constant header length of 16, version, operation, sequence id, then the
raw body bytes, all integers big-endian. -/
def writeWsProtoMsg (p : wsProtoMsg) : List Nat :=
  be32 (wsProtoRawHeaderSize + p.body.length) ++
    be16 wsProtoRawHeaderSize ++
    be16 p.version ++
    be32 p.operation ++
    be32 p.sequenceID ++
    p.body

/-- Decode-time failures of `parseWsProtoMsg`, carrying the offending field
value exactly as the Go error strings do. -/
inductive wsParseError where
  | invalidPackSize (packSize : Int)
  | bufferTooShort (bufLen : Nat) (packSize : Int)
  | unsupportedHeaderSize (headerLength : Int)
  | invalidBodySize (bodySize : Int)
deriving Repr, DecidableEq

/-- Deserialization, mirroring `parseWsProtoMsg`.  The Go function slices
all five header fields at fixed offsets before any validation, so any
buffer shorter than 16 bytes panics with a slice out-of-range error;
the panic is modelled as `none`.  Otherwise the four validation checks
run in source order and the result is `some` of an `Except`. -/
def parseWsProtoMsg (buf : List Nat) :
    Option (Except wsParseError wsProtoMsg) :=
  if buf.length < 16 then
    none
  else
    let packSize : Int := toInt32 (readBE32 buf 0)
    let headerLength : Int := toInt16 (readBE16 buf 4)
    let version : Int := toInt16 (readBE16 buf 6)
    let operation : Int := toInt32 (readBE32 buf 8)
    let sequenceID : Int := toInt32 (readBE32 buf 12)
    if packSize < 0 ∨ wsProtoMaxPackSize < packSize then
      some (.error (.invalidPackSize packSize))
    else if (buf.length : Int) < packSize then
      some (.error (.bufferTooShort buf.length packSize))
    else if headerLength ≠ wsProtoRawHeaderSize then
      some (.error (.unsupportedHeaderSize headerLength))
    else if packSize - headerLength ≤ 0 then
      some (.error (.invalidBodySize (packSize - headerLength)))
    else
      some (.ok { version := version, operation := operation,
                  sequenceID := sequenceID,
                  body := (buf.take packSize.toNat).drop headerLength.toNat })

/-- Decoding a stored `int32` bit pattern recovers the value. -/
theorem toInt32_toPat32 (v : Int) (h1 : -2147483648 <= v) (h2 : v < 2147483648) :
    toInt32 (toPat32 v) = v := by
  unfold toInt32 toPat32
  split <;> omega

/-- Decoding a stored `int16` bit pattern recovers the value. -/
theorem toInt16_toPat16 (v : Int) (h1 : -32768 <= v) (h2 : v < 32768) :
    toInt16 (toPat16 v) = v := by
  unfold toInt16 toPat16
  split <;> omega

/-- An `int32` bit pattern is below 2^32. -/
theorem toPat32_lt (v : Int) : toPat32 v < 4294967296 := by
  unfold toPat32; omega

/-- An `int16` bit pattern is below 2^16. -/
theorem toPat16_lt (v : Int) : toPat16 v < 65536 := by
  unfold toPat16; omega

section HeaderReads

variable (b0 b1 b2 b3 b4 b5 b6 b7 b8 b9 b10 b11 b12 b13 b14 b15 : Nat) (rest : List Nat)

/-- Reading the packet-length field of an explicit 16-byte header. -/
theorem readBE32_hdr0 :
    readBE32 (b0 :: b1 :: b2 :: b3 :: b4 :: b5 :: b6 :: b7 :: b8 :: b9 :: b10 :: b11 :: b12 :: b13 :: b14 :: b15 :: rest) 0 = b0 % 256 * 16777216 + b1 % 256 * 65536 + b2 % 256 * 256 + b3 % 256 := by
  simp [readBE32, byteAt]

/-- Reading the header-length field of an explicit 16-byte header. -/
theorem readBE16_hdr4 :
    readBE16 (b0 :: b1 :: b2 :: b3 :: b4 :: b5 :: b6 :: b7 :: b8 :: b9 :: b10 :: b11 :: b12 :: b13 :: b14 :: b15 :: rest) 4 = b4 % 256 * 256 + b5 % 256 := by
  simp [readBE16, byteAt]

/-- Reading the version field of an explicit 16-byte header. -/
theorem readBE16_hdr6 :
    readBE16 (b0 :: b1 :: b2 :: b3 :: b4 :: b5 :: b6 :: b7 :: b8 :: b9 :: b10 :: b11 :: b12 :: b13 :: b14 :: b15 :: rest) 6 = b6 % 256 * 256 + b7 % 256 := by
  simp [readBE16, byteAt]

/-- Reading the operation field of an explicit 16-byte header. -/
theorem readBE32_hdr8 :
    readBE32 (b0 :: b1 :: b2 :: b3 :: b4 :: b5 :: b6 :: b7 :: b8 :: b9 :: b10 :: b11 :: b12 :: b13 :: b14 :: b15 :: rest) 8 = b8 % 256 * 16777216 + b9 % 256 * 65536 + b10 % 256 * 256 + b11 % 256 := by
  simp [readBE32, byteAt]

/-- Reading the sequence-id field of an explicit 16-byte header. -/
theorem readBE32_hdr12 :
    readBE32 (b0 :: b1 :: b2 :: b3 :: b4 :: b5 :: b6 :: b7 :: b8 :: b9 :: b10 :: b11 :: b12 :: b13 :: b14 :: b15 :: rest) 12 = b12 % 256 * 16777216 + b13 % 256 * 65536 + b14 % 256 * 256 + b15 % 256 := by
  simp [readBE32, byteAt]

/-- Dropping an explicit 16-byte header leaves the body. -/
theorem drop16_hdr :
    (b0 :: b1 :: b2 :: b3 :: b4 :: b5 :: b6 :: b7 :: b8 :: b9 :: b10 :: b11 :: b12 :: b13 :: b14 :: b15 :: rest).drop 16 = rest := by
  simp

/-- The length of an explicit 16-byte header plus body. -/
theorem length_hdr :
    (b0 :: b1 :: b2 :: b3 :: b4 :: b5 :: b6 :: b7 :: b8 :: b9 :: b10 :: b11 :: b12 :: b13 :: b14 :: b15 :: rest).length = 16 + rest.length := by
  simp; omega

end HeaderReads

/-- C1 (amended): for every frame with a NON-EMPTY body of at most 2048
bytes (and fields within their Go `int16` / `int32` ranges), decoding the
encoding succeeds and reproduces version, operation, sequenceID and body
exactly.  The zero-length-body case of the original claim fails: see
`parse_write_zero_body_cex`. -/
theorem writeWsProtoMsg_parse_roundtrip (p : wsProtoMsg)
    (hv1 : -32768 <= p.version) (hv2 : p.version < 32768)
    (hop1 : -2147483648 <= p.operation) (hop2 : p.operation < 2147483648)
    (hsq1 : -2147483648 <= p.sequenceID) (hsq2 : p.sequenceID < 2147483648)
    (hlen1 : 1 <= p.body.length) (hlen : p.body.length <= 2048) :
    parseWsProtoMsg (writeWsProtoMsg p) = some (.ok p) := by
  obtain ⟨v, op, sq, body⟩ := p
  simp only at hv1 hv2 hop1 hop2 hsq1 hsq2 hlen1 hlen
  have hpack : toPat32 (wsProtoRawHeaderSize + (body.length : Int)) = 16 + body.length := by
    unfold toPat32 wsProtoRawHeaderSize; omega
  have hhdr : toPat16 wsProtoRawHeaderSize = 16 := by rfl
  have henc : writeWsProtoMsg ⟨v, op, sq, body⟩ =
      (16 + body.length) / 16777216 :: (16 + body.length) / 65536 % 256 ::
      (16 + body.length) / 256 % 256 :: (16 + body.length) % 256 ::
      0 :: 16 ::
      toPat16 v / 256 :: toPat16 v % 256 ::
      toPat32 op / 16777216 :: toPat32 op / 65536 % 256 ::
      toPat32 op / 256 % 256 :: toPat32 op % 256 ::
      toPat32 sq / 16777216 :: toPat32 sq / 65536 % 256 ::
      toPat32 sq / 256 % 256 :: toPat32 sq % 256 :: body := by
    simp [writeWsProtoMsg, be32, be16, hpack, hhdr]
  rw [henc]
  have hB0 := toPat32_lt op
  have hB1 := toPat32_lt sq
  have hB2 := toPat16_lt v
  have hps : toInt32 (16 + body.length) = (16 : Int) + body.length := by
    unfold toInt32; split <;> omega
  unfold parseWsProtoMsg
  rw [readBE32_hdr0, readBE16_hdr4, readBE16_hdr6, readBE32_hdr8, readBE32_hdr12, length_hdr]
  rw [if_neg (by omega)]
  have e0 : (16 + body.length) / 16777216 % 256 * 16777216 + (16 + body.length) / 65536 % 256 % 256 * 65536 +
      (16 + body.length) / 256 % 256 % 256 * 256 + (16 + body.length) % 256 % 256 = 16 + body.length := by
    omega
  have e4 : (0 : Nat) % 256 * 256 + 16 % 256 = 16 := by omega
  have e6 : toPat16 v / 256 % 256 * 256 + toPat16 v % 256 % 256 = toPat16 v := by omega
  have e8 : toPat32 op / 16777216 % 256 * 16777216 + toPat32 op / 65536 % 256 % 256 * 65536 +
      toPat32 op / 256 % 256 % 256 * 256 + toPat32 op % 256 % 256 = toPat32 op := by omega
  have e12 : toPat32 sq / 16777216 % 256 * 16777216 + toPat32 sq / 65536 % 256 % 256 * 65536 +
      toPat32 sq / 256 % 256 % 256 * 256 + toPat32 sq % 256 % 256 = toPat32 sq := by omega
  rw [e0, e4, e6, e8, e12, hps, toInt16_toPat16 v hv1 hv2, toInt32_toPat32 op hop1 hop2,
      toInt32_toPat32 sq hsq1 hsq2]
  have h16 : toInt16 16 = (16 : Int) := by rfl
  rw [h16]
  rw [if_neg (by simp only [wsProtoMaxPackSize, wsProtoMaxBodySize, wsProtoRawHeaderSize]; omega)]
  rw [if_neg (by push_cast; omega)]
  rw [if_neg (by decide)]
  rw [if_neg (by omega)]
  have htn : ((16 : Int) + (body.length : Int)).toNat = 16 + body.length := by omega
  have htn2 : ((16 : Int)).toNat = 16 := by rfl
  simp only [wsProtoRawHeaderSize, htn, htn2]
  rw [List.take_of_length_le (by rw [length_hdr]), drop16_hdr]

/-- C1 witness: a concrete frame with a two-byte body round-trips. -/
theorem writeWsProtoMsg_parse_roundtrip_witness :
    parseWsProtoMsg (writeWsProtoMsg { version := 1, operation := 8, sequenceID := 5, body := [65, 66] }) =
      some (.ok { version := 1, operation := 8, sequenceID := 5, body := [65, 66] }) :=
  writeWsProtoMsg_parse_roundtrip _ (by decide) (by decide) (by decide) (by decide)
    (by decide) (by decide) (by decide) (by decide)

/-- C1 counterexample: the frame with a ZERO-LENGTH body (exactly how the
client itself builds heartbeat frames) does not round-trip: decoding the
16-byte encoding fails with the invalid-body-size error, because the
decoder rejects a computed body size of 0. -/
theorem parse_write_zero_body_cex :
    parseWsProtoMsg (writeWsProtoMsg { version := 0, operation := wsProtoOpHeartbeat, sequenceID := 0, body := [] }) =
      some (.error (.invalidBodySize 0)) := by
  rfl

/-- C9: on every buffer shorter than the 16-byte header, `parseWsProtoMsg`
panics with a slice out-of-range index (modelled as `none`) instead of
returning a malformed-frame error, because all five header fields are
sliced at fixed offsets before any length validation. -/
theorem parseWsProtoMsg_short_buffer_panics (buf : List Nat) (h : buf.length < 16) :
    parseWsProtoMsg buf = none := by
  unfold parseWsProtoMsg
  rw [if_pos h]

/-- C9 witness: a concrete 15-byte buffer panics. -/
theorem parseWsProtoMsg_short_buffer_panics_witness :
    (List.replicate 15 0).length < 16 ∧ parseWsProtoMsg (List.replicate 15 0) = none :=
  ⟨by decide, parseWsProtoMsg_short_buffer_panics _ (by decide)⟩

/-- C3: for every input buffer at least 16 bytes long, decoding fails with
a malformed-frame error exactly under the four conditions of the spec,
checked in source order — (a) declared packet length negative or above the
maximum packet size (2064), (b) buffer shorter than the declared packet
length, (c) header-length field different from 16, (d) computed body size
at most 0 — each error carrying the offending field value; when none of
the conditions holds, decoding succeeds. -/
theorem parseWsProtoMsg_validation (buf : List Nat) (h : 16 <= buf.length) :
    (toInt32 (readBE32 buf 0) < 0 ∨ wsProtoMaxPackSize < toInt32 (readBE32 buf 0) →
       parseWsProtoMsg buf = some (.error (.invalidPackSize (toInt32 (readBE32 buf 0))))) ∧
    (0 <= toInt32 (readBE32 buf 0) → toInt32 (readBE32 buf 0) <= wsProtoMaxPackSize →
       (buf.length : Int) < toInt32 (readBE32 buf 0) →
       parseWsProtoMsg buf = some (.error (.bufferTooShort buf.length (toInt32 (readBE32 buf 0))))) ∧
    (0 <= toInt32 (readBE32 buf 0) → toInt32 (readBE32 buf 0) <= wsProtoMaxPackSize →
       toInt32 (readBE32 buf 0) <= (buf.length : Int) →
       toInt16 (readBE16 buf 4) ≠ wsProtoRawHeaderSize →
       parseWsProtoMsg buf = some (.error (.unsupportedHeaderSize (toInt16 (readBE16 buf 4))))) ∧
    (0 <= toInt32 (readBE32 buf 0) → toInt32 (readBE32 buf 0) <= wsProtoMaxPackSize →
       toInt32 (readBE32 buf 0) <= (buf.length : Int) →
       toInt16 (readBE16 buf 4) = wsProtoRawHeaderSize →
       toInt32 (readBE32 buf 0) - wsProtoRawHeaderSize <= 0 →
       parseWsProtoMsg buf = some (.error (.invalidBodySize (toInt32 (readBE32 buf 0) - wsProtoRawHeaderSize)))) ∧
    (0 <= toInt32 (readBE32 buf 0) → toInt32 (readBE32 buf 0) <= wsProtoMaxPackSize →
       toInt32 (readBE32 buf 0) <= (buf.length : Int) →
       toInt16 (readBE16 buf 4) = wsProtoRawHeaderSize →
       0 < toInt32 (readBE32 buf 0) - wsProtoRawHeaderSize →
       parseWsProtoMsg buf =
         some (.ok { version := toInt16 (readBE16 buf 6), operation := toInt32 (readBE32 buf 8),
                     sequenceID := toInt32 (readBE32 buf 12),
                     body := (buf.take (toInt32 (readBE32 buf 0)).toNat).drop 16 })) := by
  refine ⟨?_, ?_, ?_, ?_, ?_⟩
  · intro hbad
    unfold parseWsProtoMsg
    rw [if_neg (by omega), if_pos hbad]
  · intro h0 h1 h2
    unfold parseWsProtoMsg
    rw [if_neg (by omega), if_neg (by omega), if_pos h2]
  · intro h0 h1 h2 hne
    unfold parseWsProtoMsg
    rw [if_neg (by omega), if_neg (by omega), if_neg (by omega), if_pos hne]
  · intro h0 h1 h2 heq hbs
    unfold parseWsProtoMsg
    rw [heq]
    rw [if_neg (by omega), if_neg (by omega), if_neg (by omega), if_neg (by simp), if_pos hbs]
  · intro h0 h1 h2 heq hbs
    unfold parseWsProtoMsg
    rw [heq]
    rw [if_neg (by omega), if_neg (by omega), if_neg (by omega), if_neg (by simp),
        if_neg (by omega)]
    have : wsProtoRawHeaderSize.toNat = 16 := by rfl
    rw [this]

/-- C3 witness: an all-zero 16-byte buffer passes checks (a) and (b) and is
rejected by check (c) with the offending header-length value 0. -/
theorem parseWsProtoMsg_validation_witness :
    parseWsProtoMsg (List.replicate 16 0) = some (.error (.unsupportedHeaderSize 0)) :=
  (parseWsProtoMsg_validation (List.replicate 16 0) (by decide)).2.2.1
    (by decide) (by decide) (by decide) (by decide)

/-- The recognized chat message discriminator `CmdLiveOpenPlatformDm`. -/
def CmdLiveOpenPlatformDm : String := "LIVE_OPEN_PLATFORM_DM"

/-- The chat event payload `Danmaku` (model.go), with all JSON-mapped fields. -/
structure Danmaku where
  timestamp : Int
  roomID : Int
  uid : Int
  username : String
  userFace : String
  admin : Int
  vip : Int
  svip : Int
  msgType : Int
  dmType : Int
  message : String
  messageID : String
  emojiImgUrl : String
  fansMedalLevel : Int
  fansMedalName : String
  fansMedalWearingStatus : Bool
deriving Repr, DecidableEq, Inhabited

/-- The `websocketClientState` enum: idle, auth (awaiting auth), active. -/
inductive websocketClientState where
  | idle
  | auth
  | active
deriving Repr, DecidableEq, Inhabited

/-- Errors a `liveWebsocketClient` handler can return, mirroring the `fmt.Errorf`
sites of the source. -/
inductive wsClientError where
  | unexpectedState (s : websocketClientState)
  | unmarshalAuthFail
  | authRejected (code : Int)
  | unmarshalDanmakuFail
deriving Repr, DecidableEq

/-- State of a `liveWebsocketClient`.  Pointers and timers are modelled by
presence flags (`hasConn` for `conn ≠ nil`, `hasTicker` for a live
`heartbeatTicker`, `hasCancel` for a non-nil `loopCancel`); `cancelled`
records that `loopCancel` has fired.  Invocations of the `onClose` and
`onDanmaku` callbacks are recorded in `closeLog` / `danmakuLog` (a `none`
close reason is the nil error of a caller-initiated close), and every frame
handed to `writeMsg` is appended to `sentFrames`. -/
structure liveWebsocketClient where
  state : websocketClientState
  hasConn : Bool
  seqID : Int
  hasTicker : Bool
  hasCancel : Bool
  cancelled : Bool
  onDanmakuSet : Bool
  onCloseSet : Bool
  danmakuLog : List Danmaku
  closeLog : List (Option wsClientError)
  sentFrames : List wsProtoMsg
deriving Repr, DecidableEq, Inhabited

/-- Increment of a Go `int32`, wrapping at 2^31 as `seqID++` does. -/
def int32wrap (v : Int) : Int := (v + 2147483648) % 4294967296 - 2147483648

/-- Model of `createMsg`: builds a frame carrying the current `seqID`
(version left at its zero value) and post-increments the counter. -/
def createMsg (c : liveWebsocketClient) (op : Int) (body : List Nat) :
    liveWebsocketClient × wsProtoMsg :=
  ({ c with seqID := int32wrap (c.seqID + 1) },
   { version := 0, operation := op, sequenceID := c.seqID, body := body })

/-- Model of `writeMsg`: the frame is serialized onto the transport; we
record it in `sentFrames`. -/
def writeMsg (c : liveWebsocketClient) (m : wsProtoMsg) : liveWebsocketClient :=
  { c with sentFrames := c.sentFrames ++ [m] }

/-- Model of `sendHeartbeat`: a no-op unless the state is active. -/
def sendHeartbeat (c : liveWebsocketClient) : liveWebsocketClient :=
  if c.state ≠ .active then c
  else
    let r := createMsg c wsProtoOpHeartbeat []
    writeMsg r.1 r.2

/-- Model of `sendAuth`: a no-op unless the state is auth. -/
def sendAuth (authBody : List Nat) (c : liveWebsocketClient) : liveWebsocketClient :=
  if c.state ≠ .auth then c
  else
    let r := createMsg c wsProtoOpAuth authBody
    writeMsg r.1 r.2

/-- Model of `liveWebsocketClient.connect`: legal only from idle; after a
successful dial (`dialOk`) it resets the sequence counter to 0, installs
the handler table, enters the auth state, starts the ticker and both
loops, and sends the AUTH frame. -/
def wsConnect (dialOk : Bool) (authBody : List Nat) (c : liveWebsocketClient) :
    Except String liveWebsocketClient :=
  if c.state ≠ .idle then .error "websocket client state should be idle"
  else if ¬ dialOk then .error "dial fail"
  else
    let c1 := { c with hasConn := true, seqID := 0, state := .auth,
                       cancelled := false, hasCancel := true, hasTicker := true }
    .ok (sendAuth authBody c1)

/-- Model of `internalClose`: cancels the loops and stops the ticker when
still armed, nils them out, returns the state to idle, drops the
connection, and notifies `onClose` with the given reason when registered. -/
def internalClose (reason : Option wsClientError) (c : liveWebsocketClient) :
    liveWebsocketClient :=
  let c1 := if c.hasCancel then { c with cancelled := true, hasCancel := false } else c
  let c2 := if c1.hasTicker then { c1 with hasTicker := false } else c1
  let c3 := { c2 with state := .idle, hasConn := false }
  if c3.onCloseSet then { c3 with closeLog := c3.closeLog ++ [reason] }
  else c3

/-- Model of `Close`: a no-op when `conn` is already nil; otherwise closes
the transport and (via the deferred call) runs `internalClose` with a nil
reason. -/
def wsClose (c : liveWebsocketClient) : liveWebsocketClient :=
  if ¬ c.hasConn then c
  else internalClose none c

/-- Model of `handleOpAuth`, parameterized over the JSON unmarshalling of
the body into `wsAuthResponse` (`ua`, yielding the `code` field or `none`
on unmarshal failure): outside the auth state it returns an
unexpected-state error; a nonzero code returns an auth-rejected error and
leaves the state unchanged; code 0 moves the state to active. -/
def handleOpAuth (ua : List Nat → Option Int) (c : liveWebsocketClient)
    (msg : wsProtoMsg) : liveWebsocketClient × Option wsClientError :=
  if c.state ≠ .auth then (c, some (.unexpectedState c.state))
  else
    match ua msg.body with
    | none => (c, some .unmarshalAuthFail)
    | some code =>
      if code ≠ 0 then (c, some (.authRejected code))
      else ({ c with state := .active }, none)

/-- Model of `handleOpHeartbeat`: logs the body and succeeds. -/
def handleOpHeartbeat (c : liveWebsocketClient) (msg : wsProtoMsg) :
    liveWebsocketClient × Option wsClientError :=
  (c, none)

/-- Model of `handleOpMsg`, parameterized over the JSON envelope reads
(`gc` for the `cmd` field, `gd` for decoding the `data` sub-object): a
recognized chat cmd decodes the event and invokes the registered danmaku
callback; any other cmd is dropped with only a warning and no error. -/
def handleOpMsg (gc : List Nat → String) (gd : List Nat → Option Danmaku)
    (c : liveWebsocketClient) (msg : wsProtoMsg) :
    liveWebsocketClient × Option wsClientError :=
  if gc msg.body = CmdLiveOpenPlatformDm then
    match gd msg.body with
    | none => (c, some .unmarshalDanmakuFail)
    | some dm =>
      (if c.onDanmakuSet then { c with danmakuLog := c.danmakuLog ++ [dm] } else c, none)
  else (c, none)

/-- One wake-up of the dispatch loop: a heartbeat tick or a decoded frame
delivered on the event channel. -/
inductive wsEvent where
  | tick
  | recv (m : wsProtoMsg)
deriving Repr, DecidableEq

/-- One iteration of `eventLoop`: nothing happens after cancellation; a
tick sends a heartbeat; a received frame is dispatched through the handler
table keyed on its operation code (auth reply 8, heartbeat reply 3, send
msg reply 5), a missing handler is logged and skipped, and a handler error
is logged and absorbed — the loop continues with the handler's state. -/
def eventLoopStep (ua : List Nat → Option Int) (gc : List Nat → String)
    (gd : List Nat → Option Danmaku) (c : liveWebsocketClient) (ev : wsEvent) :
    liveWebsocketClient :=
  if c.cancelled then c
  else
    match ev with
    | .tick => if c.hasTicker then sendHeartbeat c else c
    | .recv m =>
      if m.operation = wsProtoOpAuthReply then (handleOpAuth ua c m).1
      else if m.operation = wsProtoOpHeartbeatReply then (handleOpHeartbeat c m).1
      else if m.operation = wsProtoOpSendMsgReply then (handleOpMsg gc gd c m).1
      else c

/-- Iterated dispatch loop over a list of wake-ups. -/
def evolve (ua : List Nat → Option Int) (gc : List Nat → String)
    (gd : List Nat → Option Danmaku) (c : liveWebsocketClient)
    (evs : List wsEvent) : liveWebsocketClient :=
  evs.foldl (eventLoopStep ua gc gd) c

/-- A fully-connected sample client used to instantiate theorems. -/
def sampleClient : liveWebsocketClient :=
  { state := .auth, hasConn := true, seqID := 1, hasTicker := true,
    hasCancel := true, cancelled := false, onDanmakuSet := true,
    onCloseSet := true, danmakuLog := [], closeLog := [],
    sentFrames := [{ version := 0, operation := 7, sequenceID := 0, body := [] }] }

/-- Sample auth unmarshalling oracle: the body decodes to code 0. -/
def uaAccept : List Nat → Option Int := fun _ => some 0

/-- Sample auth unmarshalling oracle: the body decodes to code 1. -/
def uaReject : List Nat → Option Int := fun _ => some 1

/-- Sample envelope oracle: the cmd field reads as an unrecognized value. -/
def gcOther : List Nat → String := fun _ => "UNKNOWN_CMD"

/-- Sample envelope oracle: the data sub-object fails to decode. -/
def gdNone : List Nat → Option Danmaku := fun _ => none

/-- A concrete AUTH_ACK frame. -/
def authReplyMsg : wsProtoMsg :=
  { version := 0, operation := 8, sequenceID := 0, body := [] }

/-- A concrete MESSAGE_ACK frame. -/
def msgReplyMsg : wsProtoMsg :=
  { version := 0, operation := 5, sequenceID := 1, body := [] }

/-- C4: for every AUTH_ACK frame handled in the auth (AwaitingAuth) state,
a decoded code of 0 moves the connection to the active state, and a
nonzero code leaves the connection out of the active state (the handler
returns the client unchanged). -/
theorem handleOpAuth_state (ua : List Nat → Option Int) (c : liveWebsocketClient)
    (msg : wsProtoMsg) (code : Int) (hs : c.state = .auth)
    (hb : ua msg.body = some code) :
    (code = 0 → (handleOpAuth ua c msg).1.state = .active) ∧
    (code ≠ 0 → (handleOpAuth ua c msg).1 = c ∧ (handleOpAuth ua c msg).1.state ≠ .active) := by
  constructor
  · intro h0
    simp [handleOpAuth, hs, hb, h0]
  · intro hnz
    simp [handleOpAuth, hs, hb, hnz]

/-- C4 witness: a concrete accepted auth ack activates the sample client. -/
theorem handleOpAuth_state_witness :
    (handleOpAuth uaAccept sampleClient authReplyMsg).1.state = .active :=
  (handleOpAuth_state uaAccept sampleClient authReplyMsg 0 rfl rfl).1 rfl

/-- C2 counterexample: dispatching an AUTH_ACK frame whose body decodes to
the nonzero code 1 while the sample client awaits auth does NOT run the
close path: the connection is kept, the state stays auth, and the close
notification is never invoked (the claim demands exactly one invocation
with the auth-rejection error). -/
theorem auth_reject_no_teardown_cex :
    (eventLoopStep uaReject gcOther gdNone sampleClient (.recv authReplyMsg)).closeLog = [] ∧
    (eventLoopStep uaReject gcOther gdNone sampleClient (.recv authReplyMsg)).hasConn = true ∧
    (eventLoopStep uaReject gcOther gdNone sampleClient (.recv authReplyMsg)).state = .auth := by
  decide

/-- C2 (amended): when the dispatch loop processes an AUTH_ACK frame whose
body carries a nonzero code while the connection awaits auth, the handler's
auth-rejection error is logged and absorbed by the loop: the client state
is completely unchanged — no teardown runs and the close notification is
not invoked. -/
theorem auth_reject_absorbed (ua : List Nat → Option Int) (gc : List Nat → String)
    (gd : List Nat → Option Danmaku) (c : liveWebsocketClient) (msg : wsProtoMsg)
    (code : Int) (hcan : c.cancelled = false) (hs : c.state = .auth)
    (hop : msg.operation = wsProtoOpAuthReply) (hb : ua msg.body = some code)
    (hnz : code ≠ 0) :
    eventLoopStep ua gc gd c (.recv msg) = c := by
  simp [eventLoopStep, hcan, hop, handleOpAuth, hs, hb, hnz]

/-- C2 witness for the amended claim: the concrete rejected auth ack leaves
the sample client unchanged. -/
theorem auth_reject_absorbed_witness :
    eventLoopStep uaReject gcOther gdNone sampleClient (.recv authReplyMsg) = sampleClient :=
  auth_reject_absorbed uaReject gcOther gdNone sampleClient authReplyMsg 1
    rfl rfl rfl rfl (by decide)

/-- C8: for every MESSAGE_ACK frame whose envelope cmd differs from the
recognized chat constant, the message handler returns the client unchanged
(no event callback is recorded) and reports no error. -/
theorem handleOpMsg_unknown_cmd (gc : List Nat → String) (gd : List Nat → Option Danmaku)
    (c : liveWebsocketClient) (msg : wsProtoMsg)
    (h : gc msg.body ≠ CmdLiveOpenPlatformDm) :
    handleOpMsg gc gd c msg = (c, none) := by
  simp [handleOpMsg, h]

/-- C8 witness: a concrete frame with cmd UNKNOWN_CMD is dropped without
callback or error. -/
theorem handleOpMsg_unknown_cmd_witness :
    handleOpMsg gcOther gdNone sampleClient msgReplyMsg = (sampleClient, none) :=
  handleOpMsg_unknown_cmd gcOther gdNone sampleClient msgReplyMsg (by decide)

/-- C5: on a connected client with a registered close callback, the first
close cancels the loops, stops the heartbeat ticker, drops the connection,
leaves the state idle and appends exactly one close notification with a
nil reason; a second close is a no-op that changes nothing and notifies
nobody. -/
theorem wsClose_idempotent (c : liveWebsocketClient) (h1 : c.hasConn = true)
    (h2 : c.onCloseSet = true) (h3 : c.hasCancel = true) (h4 : c.hasTicker = true) :
    (wsClose c).closeLog = c.closeLog ++ [none] ∧
    (wsClose c).state = .idle ∧
    (wsClose c).cancelled = true ∧
    (wsClose c).hasTicker = false ∧
    (wsClose c).hasConn = false ∧
    wsClose (wsClose c) = wsClose c := by
  simp [wsClose, internalClose, h1, h2, h3, h4]

/-- C5 witness: closing the sample client twice notifies once with a nil
reason and the second close is a no-op. -/
theorem wsClose_idempotent_witness :
    (wsClose sampleClient).closeLog = [none] ∧
    (wsClose sampleClient).state = .idle ∧
    (wsClose sampleClient).cancelled = true ∧
    (wsClose sampleClient).hasTicker = false ∧
    (wsClose sampleClient).hasConn = false ∧
    wsClose (wsClose sampleClient) = wsClose sampleClient :=
  wsClose_idempotent sampleClient rfl rfl rfl rfl

/-- The per-connection sequence invariant: the counter equals the wrapped
count of sent frames, and the i-th sent frame carries the wrapped value of
its index. -/
def SeqInv (c : liveWebsocketClient) : Prop :=
  c.seqID = int32wrap c.sentFrames.length ∧
  ∀ i, i < c.sentFrames.length →
    (c.sentFrames.getD i default).sequenceID = int32wrap i

/-- Wrapping commutes with incrementing. -/
theorem int32wrap_succ (n : Int) : int32wrap (int32wrap n + 1) = int32wrap (n + 1) := by
  unfold int32wrap
  omega

/-- Creating and writing one frame preserves the sequence invariant. -/
theorem seqInv_append (c : liveWebsocketClient) (op : Int) (body : List Nat)
    (h : SeqInv c) :
    SeqInv (writeMsg (createMsg c op body).1 (createMsg c op body).2) := by
  obtain ⟨h1, h2⟩ := h
  refine ⟨?_, ?_⟩
  · simp only [writeMsg, createMsg, List.length_append, List.length_cons, List.length_nil]
    rw [h1, int32wrap_succ]
    norm_num
  · intro i hi
    simp only [writeMsg, createMsg, List.length_append, List.length_cons,
      List.length_nil] at hi ⊢
    rcases Nat.lt_or_ge i c.sentFrames.length with hlt | hge
    · rw [List.getD_append _ _ _ _ hlt]
      exact h2 i hlt
    · have hieq : i = c.sentFrames.length := by omega
      subst hieq
      rw [List.getD_append_right _ _ _ _ (le_refl _)]
      simp only [Nat.sub_self, List.getD_cons_zero]
      exact h1

/-- Sending a heartbeat preserves the sequence invariant. -/
theorem seqInv_sendHeartbeat (c : liveWebsocketClient) (h : SeqInv c) :
    SeqInv (sendHeartbeat c) := by
  unfold sendHeartbeat
  split
  · exact h
  · exact seqInv_append c wsProtoOpHeartbeat [] h

/-- Sending the auth frame preserves the sequence invariant. -/
theorem seqInv_sendAuth (ab : List Nat) (c : liveWebsocketClient) (h : SeqInv c) :
    SeqInv (sendAuth ab c) := by
  unfold sendAuth
  split
  · exact h
  · exact seqInv_append c wsProtoOpAuth ab h

/-- The auth handler touches neither the counter nor the sent frames. -/
theorem seqInv_handleOpAuth (ua : List Nat → Option Int) (c : liveWebsocketClient)
    (m : wsProtoMsg) (h : SeqInv c) : SeqInv (handleOpAuth ua c m).1 := by
  unfold handleOpAuth
  split
  · exact h
  · cases hua : ua m.body with
    | none => exact h
    | some code =>
      simp only
      split
      · exact h
      · exact ⟨h.1, h.2⟩

/-- The message handler touches neither the counter nor the sent frames. -/
theorem seqInv_handleOpMsg (gc : List Nat → String) (gd : List Nat → Option Danmaku)
    (c : liveWebsocketClient) (m : wsProtoMsg) (h : SeqInv c) :
    SeqInv (handleOpMsg gc gd c m).1 := by
  unfold handleOpMsg
  split
  · cases hgd : gd m.body with
    | none => exact h
    | some dm =>
      simp only
      split
      · exact ⟨h.1, h.2⟩
      · exact h
  · exact h

/-- Every dispatch-loop iteration preserves the sequence invariant. -/
theorem seqInv_step (ua : List Nat → Option Int) (gc : List Nat → String)
    (gd : List Nat → Option Danmaku) (c : liveWebsocketClient) (ev : wsEvent)
    (h : SeqInv c) : SeqInv (eventLoopStep ua gc gd c ev) := by
  unfold eventLoopStep
  split
  · exact h
  · cases ev with
    | tick =>
      simp only
      split
      · exact seqInv_sendHeartbeat c h
      · exact h
    | recv m =>
      simp only
      split
      · exact seqInv_handleOpAuth ua c m h
      · split
        · exact h
        · split
          · exact seqInv_handleOpMsg gc gd c m h
          · exact h

/-- Any run of the dispatch loop preserves the sequence invariant. -/
theorem seqInv_evolve (ua : List Nat → Option Int) (gc : List Nat → String)
    (gd : List Nat → Option Danmaku) (c : liveWebsocketClient) (evs : List wsEvent)
    (h : SeqInv c) : SeqInv (evolve ua gc gd c evs) := by
  induction evs generalizing c with
  | nil => exact h
  | cons e rest ih =>
    exact ih _ (seqInv_step ua gc gd c e h)

/-- A fresh connection satisfies the sequence invariant: the counter is
reset to 0 and immediately consumed by the auth frame. -/
theorem seqInv_connect (dialOk : Bool) (ab : List Nat) (c0 c : liveWebsocketClient)
    (hs : c0.state = .idle) (hf : c0.sentFrames = [])
    (hc : wsConnect dialOk ab c0 = .ok c) : SeqInv c := by
  unfold wsConnect at hc
  split at hc
  · exact absurd hc (by simp)
  · split at hc
    · exact absurd hc (by simp)
    · simp only [Except.ok.injEq] at hc
      subst hc
      apply seqInv_sendAuth
      refine ⟨?_, ?_⟩
      · simp [hf]
        unfold int32wrap
        omega
      · intro i hi
        simp [hf] at hi

/-- Unfolding one dispatch-loop iteration from a run. -/
theorem evolve_cons (ua : List Nat → Option Int) (gc : List Nat → String)
    (gd : List Nat → Option Danmaku) (c : liveWebsocketClient) (e : wsEvent)
    (l : List wsEvent) :
    evolve ua gc gd c (e :: l) = evolve ua gc gd (eventLoopStep ua gc gd c e) l := by
  simp [evolve]

/-- An idle client with no traffic yet. -/
def idleClient : liveWebsocketClient :=
  { state := .idle, hasConn := false, seqID := 0, hasTicker := false,
    hasCancel := false, cancelled := false, onDanmakuSet := true,
    onCloseSet := true, danmakuLog := [], closeLog := [], sentFrames := [] }

/-- The client produced by a successful connect from `idleClient`: the auth
frame (operation 7, sequence id 0) has been sent and the counter is 1. -/
def authedClient : liveWebsocketClient :=
  { state := .auth, hasConn := true, seqID := 1, hasTicker := true,
    hasCancel := true, cancelled := false, onDanmakuSet := true,
    onCloseSet := true, danmakuLog := [], closeLog := [],
    sentFrames := [{ version := 0, operation := 7, sequenceID := 0, body := [] }] }

/-- The client after its auth ack is accepted. -/
def activeClient : liveWebsocketClient := { authedClient with state := .active }

/-- Dispatching the accepted auth ack on `authedClient` yields `activeClient`. -/
theorem step_auth_ok : eventLoopStep uaAccept gcOther gdNone authedClient (.recv authReplyMsg) =
    activeClient := by decide

/-- C6 (amended): on every connection, connect resets the sequence counter
to 0, and after any run of the dispatch loop the i-th frame constructed
for sending carries the sequence ID `int32wrap i` — the 32-bit wrap of its
index.  Hence the first sent frame carries 0 and every frame carries
exactly one more than its predecessor until the `int32` counter overflows
after frame 2^31 - 1 (see `seqID_wrap_cex`). -/
theorem connect_seq_ids (dialOk : Bool) (ua : List Nat → Option Int)
    (gc : List Nat → String) (gd : List Nat → Option Danmaku) (ab : List Nat)
    (c0 c : liveWebsocketClient) (evs : List wsEvent)
    (hs : c0.state = .idle) (hf : c0.sentFrames = [])
    (hc : wsConnect dialOk ab c0 = .ok c) :
    (evolve ua gc gd c evs).seqID = int32wrap (evolve ua gc gd c evs).sentFrames.length ∧
    ∀ i, i < (evolve ua gc gd c evs).sentFrames.length →
      ((evolve ua gc gd c evs).sentFrames.getD i default).sequenceID = int32wrap i :=
  seqInv_evolve ua gc gd c evs (seqInv_connect dialOk ab c0 c hs hf hc)

/-- C6 witness: right after a concrete connect, the first (auth) frame
carries sequence ID `int32wrap 0 = 0`. -/
theorem connect_seq_ids_witness :
    ((evolve uaAccept gcOther gdNone authedClient []).sentFrames.getD 0 default).sequenceID =
      int32wrap 0 :=
  (connect_seq_ids true uaAccept gcOther gdNone [] idleClient authedClient []
    rfl rfl rfl).2 0 (by decide)

/-- Each heartbeat tick on an active, uncancelled client with a live ticker
sends exactly one frame and keeps the client active. -/
theorem tick_run (ua : List Nat → Option Int) (gc : List Nat → String)
    (gd : List Nat → Option Danmaku) (n : Nat) (c : liveWebsocketClient)
    (hst : c.state = .active) (hcan : c.cancelled = false) (ht : c.hasTicker = true) :
    (evolve ua gc gd c (List.replicate n .tick)).sentFrames.length = c.sentFrames.length + n ∧
    (evolve ua gc gd c (List.replicate n .tick)).state = .active ∧
    (evolve ua gc gd c (List.replicate n .tick)).cancelled = false ∧
    (evolve ua gc gd c (List.replicate n .tick)).hasTicker = true := by
  induction n generalizing c with
  | zero => simp [evolve, hst, hcan, ht]
  | succ n ih =>
    have hstep : eventLoopStep ua gc gd c .tick =
        writeMsg (createMsg c wsProtoOpHeartbeat []).1 (createMsg c wsProtoOpHeartbeat []).2 := by
      simp [eventLoopStep, hcan, ht, sendHeartbeat, hst]
    have hsplit : evolve ua gc gd c (List.replicate (n + 1) .tick) =
        evolve ua gc gd (eventLoopStep ua gc gd c .tick) (List.replicate n .tick) := by
      simp [evolve, List.replicate_succ]
    rw [hsplit, hstep]
    obtain ⟨l, s, ca, t⟩ := ih (writeMsg (createMsg c wsProtoOpHeartbeat []).1
      (createMsg c wsProtoOpHeartbeat []).2)
      (by simp [writeMsg, createMsg, hst])
      (by simp [writeMsg, createMsg, hcan])
      (by simp [writeMsg, createMsg, ht])
    refine ⟨?_, s, ca, t⟩
    rw [l]
    simp only [writeMsg, createMsg, List.length_append, List.length_cons, List.length_nil]
    omega

/-- C6 counterexample: on the concrete connection that authenticates and
then receives 2^31 heartbeat ticks, frame number 2^31 - 1 carries the
sequence ID 2147483647 while the next constructed frame carries
-2147483648 — the Go `int32` counter wraps, so that frame's sequence ID is
NOT one greater than its predecessor's as the claim requires. -/
theorem seqID_wrap_cex :
    ((evolve uaAccept gcOther gdNone authedClient
        (wsEvent.recv authReplyMsg :: List.replicate 2147483648 wsEvent.tick)).sentFrames.getD
        2147483647 default).sequenceID = 2147483647 ∧
    ((evolve uaAccept gcOther gdNone authedClient
        (wsEvent.recv authReplyMsg :: List.replicate 2147483648 wsEvent.tick)).sentFrames.getD
        2147483648 default).sequenceID = -2147483648 ∧
    ((-2147483648 : Int) = 2147483647 + 1 → False) := by
  have hevolve : evolve uaAccept gcOther gdNone authedClient
      (wsEvent.recv authReplyMsg :: List.replicate 2147483648 wsEvent.tick) =
      evolve uaAccept gcOther gdNone activeClient (List.replicate 2147483648 wsEvent.tick) := by
    rw [evolve_cons, step_auth_ok]
  have hrun := tick_run uaAccept gcOther gdNone 2147483648 activeClient rfl rfl rfl
  have hlen : (evolve uaAccept gcOther gdNone activeClient
      (List.replicate 2147483648 wsEvent.tick)).sentFrames.length = 2147483649 := by
    rw [hrun.1]
    decide
  have hinv0 : SeqInv activeClient := by
    refine ⟨by decide, ?_⟩
    intro i hi
    have hi0 : i = 0 := by
      simp [activeClient, authedClient] at hi
      exact hi
    subst hi0
    decide
  have hinv := seqInv_evolve uaAccept gcOther gdNone activeClient
    (List.replicate 2147483648 wsEvent.tick) hinv0
  refine ⟨?_, ?_, by decide⟩
  · rw [hevolve, hinv.2 2147483647 (by omega)]
    decide
  · rw [hevolve, hinv.2 2147483648 (by omega)]
    decide

/-- The facade-level `clientState` enum. -/
inductive clientState where
  | idle
  | active
deriving Repr, DecidableEq, Inhabited

/-- Bootstrap response payload `websocketInfo`: auth body and endpoint list. -/
structure websocketInfo where
  authBody : String
  wssLink : List String
deriving Repr, DecidableEq, Inhabited

/-- Bootstrap response payload `appStartGameInfo`. -/
structure appStartGameInfo where
  gameID : String
deriving Repr, DecidableEq, Inhabited

/-- Bootstrap response payload `appStartData`. -/
structure appStartData where
  gameInfo : appStartGameInfo
  websocketInfo : websocketInfo
deriving Repr, DecidableEq, Inhabited

/-- The REST envelope `CommonResponse`. -/
structure CommonResponse (T : Type) where
  code : Int
  message : String
  requestID : String
  data : T
deriving Repr, DecidableEq, Inhabited

/-- The REST error value `CommonError`. -/
structure CommonError where
  code : Int
  message : String
  requestID : String
deriving Repr, DecidableEq, Inhabited

/-- Model of `CommonResponse.Err`: a nonzero code is an error. -/
def CommonResponse.Err {T : Type} (r : CommonResponse T) : Option CommonError :=
  if r.code ≠ 0 then some { code := r.code, message := r.message, requestID := r.requestID }
  else none

/-- The facade `LiveClient`.  The owned websocket client is abstracted to
the endpoint it was built from (`wsUrl`). -/
structure LiveClient where
  apiHost : String
  appKey : String
  appSecret : String
  projectID : Int
  clientState : clientState
  liveCode : String
  gameID : String
  wsInfo : websocketInfo
  wsUrl : Option String
deriving Repr, DecidableEq, Inhabited

/-- Model of `callAppStart` applied to the decoded bootstrap response (the
HTTP exchange itself is the external collaborator): a nonzero code is an
error, otherwise the game id and websocket info are stored. -/
def LiveClient.callAppStart (rsp : CommonResponse appStartData) (c : LiveClient) :
    Except CommonError LiveClient :=
  match rsp.Err with
  | some e => .error e
  | none => .ok { c with gameID := rsp.data.gameInfo.gameID,
                         wsInfo := rsp.data.websocketInfo }

/-- Model of `connectWs`, parameterized over the websocket dial outcome:
the new client is built from `c.wsInfo.WSSLink[0]`, a Go slice index that
panics (modelled as `none`) when the endpoint list is empty. -/
def LiveClient.connectWs (dial : String → Except String Unit) (c : LiveClient) :
    Option (Except String LiveClient) :=
  match c.wsInfo.wssLink with
  | [] => none
  | u :: _ =>
    match dial u with
    | .error e => some (.error ("connect websocket fail: " ++ e))
    | .ok _ => some (.ok { c with wsUrl := some u })

/-- Model of `LiveClient.Connect`: legal only when idle; runs the session
bootstrap, marks the client active, then connects the websocket. -/
def LiveClient.Connect (dial : String → Except String Unit)
    (rsp : CommonResponse appStartData) (liveCode : String) (c : LiveClient) :
    Option (Except String LiveClient) :=
  if c.clientState ≠ .idle then some (.error "client state should be idle")
  else
    match LiveClient.callAppStart rsp { c with liveCode := liveCode } with
    | .error e => some (.error ("start app fail: " ++ e.message))
    | .ok c1 => LiveClient.connectWs dial { c1 with clientState := .active }

/-- C10: when the session bootstrap succeeds (code 0) but returns an empty
endpoint list, `Connect` panics with an out-of-range index on
`wsInfo.WSSLink[0]` (modelled as `none`) instead of returning an error. -/
theorem Connect_empty_wsslink_panics (dial : String → Except String Unit)
    (rsp : CommonResponse appStartData) (lc : String) (c : LiveClient)
    (hs : c.clientState = .idle) (hc : rsp.code = 0)
    (hw : rsp.data.websocketInfo.wssLink = []) :
    LiveClient.Connect dial rsp lc c = none := by
  simp [LiveClient.Connect, hs, LiveClient.callAppStart, CommonResponse.Err, hc,
    LiveClient.connectWs, hw]

/-- A successful dial outcome. -/
def dialOkFn : String → Except String Unit := fun _ => .ok ()

/-- A concrete bootstrap response with code 0 and an empty endpoint list. -/
def bootstrapEmptyLinks : CommonResponse appStartData :=
  { code := 0, message := "", requestID := "req",
    data := { gameInfo := { gameID := "g" },
              websocketInfo := { authBody := "auth", wssLink := [] } } }

/-- A fresh idle facade client. -/
def freshLiveClient : LiveClient :=
  { apiHost := "", appKey := "k", appSecret := "s", projectID := 1,
    clientState := .idle, liveCode := "", gameID := "",
    wsInfo := { authBody := "", wssLink := [] }, wsUrl := none }

/-- C10 witness: the concrete empty-endpoint bootstrap makes `Connect`
panic. -/
theorem Connect_empty_wsslink_panics_witness :
    LiveClient.Connect dialOkFn bootstrapEmptyLinks "lc" freshLiveClient = none :=
  Connect_empty_wsslink_panics dialOkFn bootstrapEmptyLinks "lc" freshLiveClient
    rfl rfl rfl

/-- Rotation of a 32-bit word to the right by n bits. -/
def rotr32 (n x : Nat) : Nat := ((x >>> n) ||| ((x % 4294967296) <<< (32 - n))) % 4294967296

/-- Rotation of a 32-bit word to the left by n bits. -/
def rotl32 (n x : Nat) : Nat := (((x % 4294967296) <<< n) ||| (x >>> (32 - n))) % 4294967296

/-- Bitwise complement of a 32-bit word. -/
def not32 (x : Nat) : Nat := x ^^^ 4294967295

/-- Big-endian byte serialization of a 32-bit word. -/
def be32enc (v : Nat) : List Nat :=
  [v / 16777216 % 256, v / 65536 % 256, v / 256 % 256, v % 256]

/-- Big-endian byte serialization of a 64-bit word. -/
def be64enc (v : Nat) : List Nat := be32enc (v / 4294967296) ++ be32enc v

/-- Little-endian byte serialization of a 32-bit word. -/
def le32enc (v : Nat) : List Nat :=
  [v % 256, v / 256 % 256, v / 65536 % 256, v / 16777216 % 256]

/-- Little-endian byte serialization of a 64-bit word. -/
def le64enc (v : Nat) : List Nat := le32enc v ++ le32enc (v / 4294967296)

/-- Little-endian 32-bit read at a fixed offset. -/
def readLE32 (l : List Nat) (off : Nat) : Nat :=
  byteAt l off + byteAt l (off + 1) * 256 + byteAt l (off + 2) * 65536 +
    byteAt l (off + 3) * 16777216

/-- Split a byte sequence into 64-byte blocks. -/
def chunks64 : List Nat → List (List Nat)
  | [] => []
  | x :: xs => (x :: xs).take 64 :: chunks64 ((x :: xs).drop 64)
termination_by l => l.length
decreasing_by simp; omega

/-- Padding shared by MD5 and SHA-256: a 128 byte, zeros up to 56 mod
64, then the bit length in the given encoding. -/
def shaPad (lenEnc : Nat → List Nat) (msg : List Nat) : List Nat :=
  msg ++ 128 :: List.replicate ((64 + 56 - (msg.length + 1) % 64) % 64) 0 ++
    lenEnc (8 * msg.length)

/-- The SHA-256 round constants. -/
def sha256K : List Nat :=
  [1116352408, 1899447441, 3049323471, 3921009573, 961987163, 1508970993, 2453635748, 2870763221,
   3624381080, 310598401, 607225278, 1426881987, 1925078388, 2162078206, 2614888103, 3248222580,
   3835390401, 4022224774, 264347078, 604807628, 770255983, 1249150122, 1555081692, 1996064986,
   2554220882, 2821834349, 2952996808, 3210313671, 3336571891, 3584528711, 113926993, 338241895,
   666307205, 773529912, 1294757372, 1396182291, 1695183700, 1986661051, 2177026350, 2456956037,
   2730485921, 2820302411, 3259730800, 3345764771, 3516065817, 3600352804, 4094571909, 275423344,
   430227734, 506948616, 659060556, 883997877, 958139571, 1322822218, 1537002063, 1747873779,
   1955562222, 2024104815, 2227730452, 2361852424, 2428436474, 2756734187, 3204031479, 3329325298]

/-- The SHA-256 initial state. -/
def sha256H0 : List Nat :=
  [1779033703, 3144134277, 1013904242, 2773480762, 1359893119, 2600822924, 528734635, 1541459225]

/-- The SHA-256 message schedule of one block. -/
def sha256Schedule (chunk : List Nat) : List Nat :=
  let w16 := (List.range 16).map (fun i => readBE32 chunk (4 * i))
  (List.range 48).foldl (fun w _ =>
    let i := w.length
    let x15 := w.getD (i - 15) 0
    let x2 := w.getD (i - 2) 0
    let s0 := rotr32 7 x15 ^^^ rotr32 18 x15 ^^^ (x15 >>> 3)
    let s1 := rotr32 17 x2 ^^^ rotr32 19 x2 ^^^ (x2 >>> 10)
    w ++ [(w.getD (i - 16) 0 + s0 + w.getD (i - 7) 0 + s1) % 4294967296]) w16

/-- The SHA-256 compression of one block. -/
def sha256Rounds (h : List Nat) (chunk : List Nat) : List Nat :=
  let w := sha256Schedule chunk
  let fin := (List.range 64).foldl (fun (st : List Nat) i =>
    match st with
    | [a, b, c, d, e, f, g, hh] =>
      let S1 := rotr32 6 e ^^^ rotr32 11 e ^^^ rotr32 25 e
      let ch := (e &&& f) ^^^ (not32 e &&& g)
      let t1 := (hh + S1 + ch + sha256K.getD i 0 + w.getD i 0) % 4294967296
      let S0 := rotr32 2 a ^^^ rotr32 13 a ^^^ rotr32 22 a
      let mj := (a &&& b) ^^^ (a &&& c) ^^^ (b &&& c)
      let t2 := (S0 + mj) % 4294967296
      [(t1 + t2) % 4294967296, a, b, c, (d + t1) % 4294967296, e, f, g]
    | _ => st) h
  (h.zip fin).map (fun p => (p.1 + p.2) % 4294967296)

/-- SHA-256 of a byte sequence, as `crypto/sha256` computes it. -/
def sha256 (msg : List Nat) : List Nat :=
  ((chunks64 (shaPad be64enc msg)).foldl sha256Rounds sha256H0).map be32enc |>.flatten

/-- The MD5 round constants. -/
def md5K : List Nat :=
  [3614090360, 3905402710, 606105819, 3250441966, 4118548399, 1200080426, 2821735955, 4249261313,
   1770035416, 2336552879, 4294925233, 2304563134, 1804603682, 4254626195, 2792965006, 1236535329,
   4129170786, 3225465664, 643717713, 3921069994, 3593408605, 38016083, 3634488961, 3889429448,
   568446438, 3275163606, 4107603335, 1163531501, 2850285829, 4243563512, 1735328473, 2368359562,
   4294588738, 2272392833, 1839030562, 4259657740, 2763975236, 1272893353, 4139469664, 3200236656,
   681279174, 3936430074, 3572445317, 76029189, 3654602809, 3873151461, 530742520, 3299628645,
   4096336452, 1126891415, 2878612391, 4237533241, 1700485571, 2399980690, 4293915773, 2240044497,
   1873313359, 4264355552, 2734768916, 1309151649, 4149444226, 3174756917, 718787259, 3951481745]

/-- The MD5 per-round shift amounts. -/
def md5S : List Nat :=
  [7, 12, 17, 22, 7, 12, 17, 22, 7, 12, 17, 22, 7, 12, 17, 22,
   5, 9, 14, 20, 5, 9, 14, 20, 5, 9, 14, 20, 5, 9, 14, 20,
   4, 11, 16, 23, 4, 11, 16, 23, 4, 11, 16, 23, 4, 11, 16, 23,
   6, 10, 15, 21, 6, 10, 15, 21, 6, 10, 15, 21, 6, 10, 15, 21]

/-- The MD5 compression of one block. -/
def md5Rounds (st : List Nat) (chunk : List Nat) : List Nat :=
  let fin := (List.range 64).foldl (fun (s : List Nat) i =>
    match s with
    | [a, b, c, d] =>
      let fg : Nat × Nat :=
        if i < 16 then ((b &&& c) ||| (not32 b &&& d), i)
        else if i < 32 then ((d &&& b) ||| (not32 d &&& c), (5 * i + 1) % 16)
        else if i < 48 then (b ^^^ c ^^^ d, (3 * i + 5) % 16)
        else (c ^^^ (b ||| not32 d), 7 * i % 16)
      let f2 := (fg.1 + a + md5K.getD i 0 + readLE32 chunk (4 * fg.2)) % 4294967296
      [d, (b + rotl32 (md5S.getD i 0) f2) % 4294967296, b, c]
    | _ => s) st
  (st.zip fin).map (fun p => (p.1 + p.2) % 4294967296)

/-- MD5 of a byte sequence, as `crypto/md5` computes it. -/
def md5 (msg : List Nat) : List Nat :=
  ((chunks64 (shaPad le64enc msg)).foldl md5Rounds
    [1732584193, 4023233417, 2562383102, 271733878]).map le32enc |>.flatten

/-- HMAC-SHA256, as `crypto/hmac` computes it for a SHA-256 block size of
64 bytes. -/
def hmacSha256 (key msg : List Nat) : List Nat :=
  let k0 := if 64 < key.length then sha256 key else key
  let k := k0 ++ List.replicate (64 - k0.length) 0
  sha256 ((k.map (fun b => b ^^^ 92)) ++ sha256 ((k.map (fun b => b ^^^ 54)) ++ msg))

/-- Lowercase hex digit of a value below 16. -/
def hexDigit (n : Nat) : Char :=
  if n < 10 then Char.ofNat (48 + n) else Char.ofNat (87 + n)

/-- Lowercase hex encoding of a byte sequence (`hex.EncodeToString`). -/
def hexEncode (bs : List Nat) : String :=
  String.mk ((bs.map (fun b => [hexDigit (b / 16 % 16), hexDigit (b % 16)])).flatten)

/-- UTF-8 encoding of one character. -/
def utf8Char (c : Char) : List Nat :=
  let n := c.toNat
  if n < 128 then [n]
  else if n < 2048 then [192 + n / 64, 128 + n % 64]
  else if n < 65536 then [224 + n / 4096, 128 + n / 64 % 64, 128 + n % 64]
  else [240 + n / 262144, 128 + n / 4096 % 64, 128 + n / 64 % 64, 128 + n % 64]

/-- UTF-8 bytes of a string, the byte content of a Go string. -/
def utf8Bytes (s : String) : List Nat := (s.data.map utf8Char).flatten


/-- Signed header name constant from the source. -/
def HeaderBiliContentMD5 : String := "X-Bili-Content-MD5"
/-- Signed header name constant from the source. -/
def HeaderBiliTimestamp : String := "X-Bili-Timestamp"
/-- Signed header name constant from the source. -/
def HeaderBiliSignatureMethod : String := "X-Bili-Signature-Method"
/-- Signed header name constant from the source. -/
def HeaderBiliSignatureNonce : String := "X-Bili-Signature-Nonce"
/-- Signed header name constant from the source. -/
def HeaderBiliAccessKeyId : String := "X-Bili-AccessKeyId"
/-- Signed header name constant from the source. -/
def HeaderBiliSignatureVersion : String := "X-Bili-Signature-Version"

/-- The signed header keys, listed alphabetically in the source. -/
def signatureSourceHeaders : List String :=
  [HeaderBiliAccessKeyId, HeaderBiliContentMD5, HeaderBiliSignatureMethod,
   HeaderBiliSignatureNonce, HeaderBiliSignatureVersion, HeaderBiliTimestamp]

/-- Model of `GenerateSignature`: appends `lowercase(key):value` and a
newline for each signed header, strips the final byte, and returns the
hex-encoded HMAC-SHA256 of the result keyed by the app secret. -/
def GenerateSignature (appSecret : String) (header : String → String) : String :=
  let buf := signatureSourceHeaders.foldl
    (fun b k => b ++ utf8Bytes k.toLower ++ [58] ++ utf8Bytes (header k) ++ [10]) []
  hexEncode (hmacSha256 (utf8Bytes appSecret) buf.dropLast)

/-- Spec-side signing payload, following the words of the spec: the
newline-joined lowercase `key:value` lines of exactly the six signed
headers in their sorted order, with no trailing newline. -/
def signedPayloadSpec (header : String → String) : List Nat :=
  List.intercalate [10]
    (signatureSourceHeaders.map (fun k => utf8Bytes (k.toLower ++ ":" ++ header k)))

/-- The UTF-8 encoding distributes over string append. -/
theorem utf8Bytes_append (a b : String) :
    utf8Bytes (a ++ b) = utf8Bytes a ++ utf8Bytes b := by
  simp [utf8Bytes]

/-- Dropping the final separator of six terminated lines equals joining
the lines with the separator. -/
theorem joinDropLast (w1 w2 w3 w4 w5 w6 : List Nat) :
    (w1 ++ [10] ++ w2 ++ [10] ++ w3 ++ [10] ++ w4 ++ [10] ++ w5 ++ [10] ++ w6 ++ ([10] : List Nat)).dropLast =
      List.intercalate [10] [w1, w2, w3, w4, w5, w6] := by
  have h : (w1 ++ [10] ++ w2 ++ [10] ++ w3 ++ [10] ++ w4 ++ [10] ++ w5 ++ [10] ++ w6 ++ ([10] : List Nat)) =
      (w1 ++ [10] ++ w2 ++ [10] ++ w3 ++ [10] ++ w4 ++ [10] ++ w5 ++ [10] ++ w6) ++ [10] := by
    simp [List.append_assoc]
  rw [h, List.dropLast_concat]
  simp [List.intercalate]

/-- The source signing payload equals the spec-side payload, lifted
through HMAC and hex. -/
theorem generateSignature_eq_spec (secret : String) (header : String → String) :
    GenerateSignature secret header =
      hexEncode (hmacSha256 (utf8Bytes secret) (signedPayloadSpec header)) := by
  have hpayload :
      (signatureSourceHeaders.foldl
        (fun b k => b ++ utf8Bytes k.toLower ++ [58] ++ utf8Bytes (header k) ++ [10]) []).dropLast =
      signedPayloadSpec header := by
    unfold signedPayloadSpec
    simp only [signatureSourceHeaders, List.foldl_cons, List.foldl_nil, List.map_cons,
      List.map_nil, List.nil_append, utf8Bytes_append]
    rw [show utf8Bytes ":" = [58] from rfl]
    rw [← joinDropLast (utf8Bytes HeaderBiliAccessKeyId.toLower ++ [58] ++ utf8Bytes (header HeaderBiliAccessKeyId))
      (utf8Bytes HeaderBiliContentMD5.toLower ++ [58] ++ utf8Bytes (header HeaderBiliContentMD5))
      (utf8Bytes HeaderBiliSignatureMethod.toLower ++ [58] ++ utf8Bytes (header HeaderBiliSignatureMethod))
      (utf8Bytes HeaderBiliSignatureNonce.toLower ++ [58] ++ utf8Bytes (header HeaderBiliSignatureNonce))
      (utf8Bytes HeaderBiliSignatureVersion.toLower ++ [58] ++ utf8Bytes (header HeaderBiliSignatureVersion))
      (utf8Bytes HeaderBiliTimestamp.toLower ++ [58] ++ utf8Bytes (header HeaderBiliTimestamp))]
    simp only [List.append_assoc]
  show hexEncode (hmacSha256 (utf8Bytes secret)
    ((signatureSourceHeaders.foldl
      (fun b k => b ++ utf8Bytes k.toLower ++ [58] ++ utf8Bytes (header k) ++ [10]) []).dropLast)) = _
  rw [hpayload]

/-- Setting one header of an abstract header map. -/
def headerSet (h : String → String) (k v : String) : String → String :=
  fun k2 => if k2 = k then v else h k2

/-- Zero-padding of a number to width 8, the `%08d` of the nonce. -/
def sprintf08 (r : Nat) : String :=
  let s := toString r
  String.mk (List.replicate (8 - s.length) (Char.ofNat 48)) ++ s

/-- Model of the header preparation of `ApiTransport.RoundTrip` before the
Authorization header is computed: timestamp, fixed signature method,
nonce, access key id, signature version, and for POST requests the hex MD5
of the body. -/
def roundTripPreAuth (appKey : String) (ts : Int) (r : Nat) (method : String)
    (body : List Nat) (h0 : String → String) : String → String :=
  let h1 := headerSet h0 HeaderBiliTimestamp (toString ts)
  let h2 := headerSet h1 HeaderBiliSignatureMethod "HMAC-SHA256"
  let h3 := headerSet h2 HeaderBiliSignatureNonce (toString ts ++ sprintf08 r)
  let h4 := headerSet h3 HeaderBiliAccessKeyId appKey
  let h5 := headerSet h4 HeaderBiliSignatureVersion "1.0"
  if method = "POST" then headerSet h5 HeaderBiliContentMD5 (hexEncode (md5 body)) else h5

/-- Model of `ApiTransport.RoundTrip` on headers: prepares the signed
headers, then sets Authorization to the generated signature. -/
def RoundTrip (appKey appSecret : String) (ts : Int) (r : Nat) (method : String)
    (body : List Nat) (h0 : String → String) : String → String :=
  headerSet (roundTripPreAuth appKey ts r method body h0) "Authorization"
    (GenerateSignature appSecret (roundTripPreAuth appKey ts r method body h0))

/-- C7: `GenerateSignature` returns the hex-encoded HMAC-SHA256, keyed by
the app secret, of the newline-joined lowercase `key:value` lines of
exactly the six signed headers in sorted order with no trailing newline;
and `RoundTrip` sets exactly this value as the Authorization header of
every signed request. -/
theorem generateSignature_spec :
    (∀ (secret : String) (header : String → String),
      GenerateSignature secret header =
        hexEncode (hmacSha256 (utf8Bytes secret) (signedPayloadSpec header))) ∧
    (∀ (appKey secret : String) (ts : Int) (r : Nat) (method : String)
       (body : List Nat) (h0 : String → String),
      RoundTrip appKey secret ts r method body h0 "Authorization" =
        GenerateSignature secret (roundTripPreAuth appKey ts r method body h0)) := by
  constructor
  · exact generateSignature_eq_spec
  · intro appKey secret ts r method body h0
    simp [RoundTrip, headerSet]
